import Mathlib

/-!
Verification development for the shopify-lightspeed order-synchronization
bridge.  The definitions below are a shallow embedding of the relevant parts
of the repository:

* `src/services/lightspeed.js` — the Lightspeed catalog/sale client
  (`getItemBySystemSku`, `createSale`) with its per-line fulfillment-price
  computation, subtotal/tax computation and its retry-on-401 behaviour;
* `src/index.js` — the webhook intake handler (`POST /webhooks/orders-create`),
  the manual resync handler (`POST /resync/:orderId`) and the retry sweep
  (`GET /cron/retry-failed`), together with the in-memory state
  (`processedOrders`, `orderLogs`, `failedOrders`) and the Redis-backed
  durable lists (`order_history`, `failed_queue`).

JavaScript numbers are modelled as exact rationals, with `NaN` made explicit
as `Option ℚ` where the code can produce it.  Remote HTTP calls are modelled
as explicit oracles (`IntakeEnv`, `DrainEnv`, response streams), and the
Redis list operations `lpush` / `lrem` as list cons / removal by value.
-/

/-! ## JavaScript numeric modelling -/

/-- `toFixed(2)` followed by `parseFloat`, on an ordinary (non-NaN) number:
rounding to two decimal places, half away from the smaller value. -/
def round2 (q : ℚ) : ℚ := (⌊q * 100 + 1 / 2⌋ : ℚ) / 100

/-- A JavaScript field value as the Lightspeed client consumes it: the code
only ever observes its truthiness (`x || y || 0`) and its `parseFloat`
result (`none` models `NaN`). -/
structure JsField where
  truthy : Bool
  parsed : Option ℚ
deriving DecidableEq

/-- A numeric field holding `q` (truthy exactly when non-zero). -/
def JsField.num (q : ℚ) : JsField := ⟨decide (q ≠ 0), some q⟩

/-- An absent (`undefined`/`null`) field: falsy, `parseFloat` gives NaN. -/
def JsField.missing : JsField := ⟨false, none⟩

/-- A non-empty non-numeric string field: truthy, `parseFloat` gives NaN. -/
def JsField.nonNumeric : JsField := ⟨true, none⟩

/-- `item.avgCost || item.defaultCost || 0` from `createSale`
(`src/services/lightspeed.js:228`). -/
def costField (avgCost defaultCost : JsField) : JsField :=
  if avgCost.truthy then avgCost
  else if defaultCost.truthy then defaultCost
  else JsField.num 0

/-! ## `createSale` pricing (`src/services/lightspeed.js:216-265`) -/

/-- A sale line as passed into `createSale`: `{itemID, quantity, unitPrice}`. -/
structure InLine where
  itemID : ℕ
  quantity : ℚ
  unitPrice : ℚ
deriving DecidableEq

/-- A formatted sale line as submitted: `{itemID, unitQuantity, unitPrice}`. -/
structure OutLine where
  itemID : ℕ
  unitQuantity : ℚ
  unitPrice : ℚ
deriving DecidableEq

/-- The cost-bearing part of the remote item record fetched per line. -/
structure ItemRec where
  avgCost : JsField
  defaultCost : JsField
deriving DecidableEq

/-- Per-line unit-price computation of `createSale`
(`src/services/lightspeed.js:228-235`):
`avgCost = parseFloat(item.avgCost || item.defaultCost || 0)`,
`fulfillmentPrice = parseFloat((avgCost / 0.80).toFixed(2))`, and
`if (isNaN(fulfillmentPrice) || fulfillmentPrice <= 0) fulfillmentPrice = line.unitPrice`. -/
def fulfillmentPrice (item : ItemRec) (unitPrice : ℚ) : ℚ :=
  let avgCost : Option ℚ := (costField item.avgCost item.defaultCost).parsed
  let fp : Option ℚ := (avgCost.map (fun c => c / (4 / 5))).map round2
  match fp with
  | none => unitPrice
  | some p => if p ≤ 0 then unitPrice else p

/-- The `formattedLines` accumulation loop of `createSale`
(`src/services/lightspeed.js:221-244`), with the remote per-item fetch
abstracted as `fetch : itemID → ItemRec`. -/
def formatLines (fetch : ℕ → ItemRec) : List InLine → List OutLine
  | [] => []
  | l :: ls =>
      { itemID := l.itemID
        unitQuantity := l.quantity
        unitPrice := fulfillmentPrice (fetch l.itemID) l.unitPrice } :: formatLines fetch ls

/-- `const subtotal = formattedLines.reduce((sum, l) => sum + (l.unitPrice * l.unitQuantity), 0)`
(`src/services/lightspeed.js:246`). -/
def subtotal (ls : List OutLine) : ℚ :=
  ls.foldl (fun sum l => sum + l.unitPrice * l.unitQuantity) 0

/-- `const totalWithTax = (subtotal * (1 + taxRate)).toFixed(2)` with
`taxRate = 0.07` (`src/services/lightspeed.js:247-248`). -/
def totalWithTax (ls : List OutLine) : ℚ :=
  round2 (subtotal ls * (1 + 7 / 100))

/-- The parts of the submitted sale payload the claims are about: the
formatted lines and the single `SalePayments.SalePayment` amount list
(`src/services/lightspeed.js:250-265`). -/
structure SalePayload where
  customerID : ℚ
  saleLines : List OutLine
  paymentAmounts : List ℚ
deriving DecidableEq

/-- Payload construction of `createSale` after the customer-id guard. -/
def mkSalePayload (fetch : ℕ → ItemRec) (customerID : ℚ) (lines : List InLine) :
    SalePayload :=
  { customerID := customerID
    saleLines := formatLines fetch lines
    paymentAmounts := [totalWithTax (formatLines fetch lines)] }

/-- `createSale` up to payload submission: `if (!customerID) throw new Error("Customer ID required")`
(`src/services/lightspeed.js:217`), then the payload build. -/
def createSalePayload (fetch : ℕ → ItemRec) (customerID : ℚ) (lines : List InLine) :
    Except String SalePayload :=
  if customerID = 0 then Except.error ("Customer ID required")
  else Except.ok (mkSalePayload fetch customerID lines)

/-! ## Retry-on-401 behaviour of the client
(`src/services/lightspeed.js:205-213` for `getItemBySystemSku`,
`src/services/lightspeed.js:278-287` for `createSale`)

Each attempt of the underlying HTTP call is answered by a response stream
`api : ℕ → ApiResp α` (`api k` answers the `k`-th attempt, 0-indexed), and
`refreshOk k` tells whether the `k`-th `refreshAccessToken()` call succeeds.
The source recursion (`return getItemBySystemSku(systemSku)` respectively
`return createSale({saleLines, customerID})` inside the 401 catch branch)
is embedded with explicit fuel; `stillRunning k` records that `k` attempts
(each followed by a refresh) completed without the call returning. -/

/-- Outcome of one HTTP attempt as discriminated by the catch branch. -/
inductive ApiResp (α : Type) where
  | ok (a : α)
  | err401
  | errOther (msg : String)
deriving DecidableEq

/-- Result of running a 401-retrying client call with bounded fuel,
recording the number of attempts performed. -/
inductive CallResult (α : Type) where
  | ok (a : α) (attempts : ℕ)
  | failed (msg : String) (attempts : ℕ)
  | refreshFailed (attempts : ℕ)
  | stillRunning (attempts : ℕ)
deriving DecidableEq

/-- The retry recursion of `getItemBySystemSku`: an attempt that returns 401
triggers `await refreshAccessToken()` and then a full recursive re-invocation
(`src/services/lightspeed.js:206-209`). -/
def getItemLoop (api : ℕ → ApiResp α) (refreshOk : ℕ → Bool) : ℕ → ℕ → CallResult α
  | k, 0 => CallResult.stillRunning k
  | k, fuel + 1 =>
      match api k with
      | ApiResp.ok a => CallResult.ok a (k + 1)
      | ApiResp.errOther m => CallResult.failed m (k + 1)
      | ApiResp.err401 =>
          if refreshOk k then getItemLoop api refreshOk (k + 1) fuel
          else CallResult.refreshFailed (k + 1)

/-- `getItemBySystemSku` viewed through its retry behaviour. -/
def getItemBySystemSku (api : ℕ → ApiResp α) (refreshOk : ℕ → Bool) (fuel : ℕ) :
    CallResult α :=
  getItemLoop api refreshOk 0 fuel

/-- The identical retry recursion of `createSale`
(`src/services/lightspeed.js:279-283`): on 401 it refreshes and re-runs the
whole `createSale` call. -/
def createSaleLoop (api : ℕ → ApiResp α) (refreshOk : ℕ → Bool) : ℕ → ℕ → CallResult α
  | k, 0 => CallResult.stillRunning k
  | k, fuel + 1 =>
      match api k with
      | ApiResp.ok a => CallResult.ok a (k + 1)
      | ApiResp.errOther m => CallResult.failed m (k + 1)
      | ApiResp.err401 =>
          if refreshOk k then createSaleLoop api refreshOk (k + 1) fuel
          else CallResult.refreshFailed (k + 1)

/-- `createSale` viewed through its retry behaviour. -/
def createSaleCall (api : ℕ → ApiResp α) (refreshOk : ℕ → Bool) (fuel : ℕ) :
    CallResult α :=
  createSaleLoop api refreshOk 0 fuel

/-- A remote that answers 401 to every attempt. -/
def always401 : ℕ → ApiResp Unit := fun _ => ApiResp.err401

/-- A token endpoint whose refresh always succeeds. -/
def refreshAlwaysOk : ℕ → Bool := fun _ => true

/-! ## Server state (`src/index.js`, Redis-backed variant)

`SyncAttempt` records are built with `Option` fields because the source
builds several distinct record shapes: the skip record carries
`retryCount: 0` and `saleLines: []` while the failure-branch `errorInfo`
record carries neither field (`src/index.js:515-523`).  `lpush` is list
cons (newest first) and JSON round-tripping is the identity on records. -/

/-- A product entry `{sku, quantity, title?}`. -/
structure Product where
  sku : Option String
  quantity : ℚ
  title : Option String
deriving DecidableEq

/-- A record stored in `orderLogs` / `order_history` / `failed_queue`. -/
structure SyncRecord where
  shopifyOrderId : String
  shopDomain : String
  lsCustomerID : String
  timestamp : String
  status : Option String
  products : Option (List Product)
  saleLines : Option (List InLine)
  lsSaleID : Option String
  errorMessage : Option String
  errorDetails : Option String
  retryCount : Option ℕ
  lineItemsCount : Option ℕ
deriving DecidableEq

/-- The mutable state of the process: the in-process dedup set, the two
in-memory mirrors and the two durable Redis lists. -/
structure ServerState where
  processedOrders : List String
  orderLogs : List SyncRecord
  failedOrders : List SyncRecord
  redisHistory : List SyncRecord
  redisQueue : List SyncRecord
deriving DecidableEq

/-- `lrem key 1 v`: remove the first element equal to `v`. -/
def removeFirst [DecidableEq α] : List α → α → List α
  | [], _ => []
  | x :: xs, a => if x = a then xs else x :: removeFirst xs a

/-- `orderLogs.find(o => o.shopifyOrderId === id)` followed by a status
mutation of the found record, as the sweep and resync handlers do. -/
def updateLogStatus : List SyncRecord → String → String → List SyncRecord
  | [], _, _ => []
  | r :: rs, id, st =>
      if r.shopifyOrderId = id then { r with status := some st } :: rs
      else r :: updateLogStatus rs id st

/-! ## Webhook intake (`src/index.js:409-545`)

The model starts after HMAC authentication has succeeded (the claims all
concern authenticated deliveries); `lsCustomerID` is the store-config value
already resolved from the environment scan.  Remote effects are an oracle:
`lookup sku` is the outcome of `getItemBySystemSku(sku)` and
`sale lines customerID` the outcome of `createSale(...)` for this delivery. -/

/-- JavaScript `s.trim()`: strip leading and trailing whitespace (modelled
over the character list so that concrete runs evaluate). -/
def jsTrim (s : String) : String :=
  String.mk (((s.toList.dropWhile Char.isWhitespace).reverse.dropWhile
    Char.isWhitespace).reverse)

/-- An inbound order line item `{sku, quantity, price, title}`. -/
structure OrderItem where
  sku : Option String
  quantity : ℚ
  price : ℚ
  title : Option String
deriving DecidableEq

/-- An inbound order payload (the fields the handler reads). -/
structure Order where
  id : String
  line_items : List OrderItem
deriving DecidableEq

/-- Error data attached to a failed `createSale`: `err.message` and
`err.response?.data || err.stack || err.toString()`. -/
structure SaleErr where
  message : String
  details : String
deriving DecidableEq

/-- Successful `createSale` result: `res.data.Sale` with its optional
`saleID`. -/
structure SaleOk where
  saleID : Option String
deriving DecidableEq

/-- Remote behaviour during one webhook delivery. -/
structure IntakeEnv where
  lookup : String → Except String ℕ
  sale : List InLine → String → Except SaleErr SaleOk

/-- `order.line_items?.map(i => ({sku: i.sku?.trim(), quantity: i.quantity}))`,
the products list of the skip and failure log records. -/
def rawProducts (items : List OrderItem) : List Product :=
  items.map fun i => { sku := i.sku.map jsTrim, quantity := i.quantity, title := none }

/-- The sku-resolution loop (`src/index.js:472-488`): lines with a missing or
empty (after trim) sku are skipped, a failed lookup drops the line, and each
resolved line contributes a sale line and a product entry in order. -/
def collectLines (lookup : String → Except String ℕ) :
    List OrderItem → List InLine × List Product
  | [] => ([], [])
  | i :: rest =>
      match i.sku with
      | none => collectLines lookup rest
      | some s =>
          let t := jsTrim s
          if t = "" then collectLines lookup rest
          else
            match lookup t with
            | Except.error _ => collectLines lookup rest
            | Except.ok itemID =>
                let tail := collectLines lookup rest
                ({ itemID := itemID, quantity := i.quantity, unitPrice := i.price } :: tail.1,
                 ({ sku := some t, quantity := i.quantity, title := i.title } : Product) :: tail.2)

/-- The `skipInfo` record built when no token is cached
(`src/index.js:449-460`): note `retryCount: 0` and `saleLines: []` are
present here. -/
def skipRecord (shopDomain lsCustomerID now : String) (order : Order) : SyncRecord :=
  { shopifyOrderId := order.id
    shopDomain := shopDomain
    lsCustomerID := lsCustomerID
    timestamp := now
    status := some ("skipped")
    products := some (rawProducts order.line_items)
    saleLines := some []
    lsSaleID := none
    errorMessage := some ("Lightspeed token not ready")
    errorDetails := some ("Token expired or missing - cron refresh should handle")
    retryCount := some 0
    lineItemsCount := none }

/-- The `successLog` record (`src/index.js:500-508`). -/
def successRecord (shopDomain lsCustomerID now : String) (order : Order)
    (products : List Product) (sr : SaleOk) : SyncRecord :=
  { shopifyOrderId := order.id
    shopDomain := shopDomain
    lsCustomerID := lsCustomerID
    timestamp := now
    status := some ("success")
    products := some products
    saleLines := none
    lsSaleID := some (sr.saleID.getD ("unknown"))
    errorMessage := none
    errorDetails := none
    retryCount := none
    lineItemsCount := none }

/-- The `errorInfo` record built in the catch branch (`src/index.js:515-523`)
and pushed to `failedOrders`, `order_history` and `failed_queue`: it has no
`status`, no `retryCount` and no `saleLines` field. -/
def errorInfoRecord (shopDomain lsCustomerID now : String) (order : Order)
    (e : SaleErr) : SyncRecord :=
  { shopifyOrderId := order.id
    shopDomain := shopDomain
    lsCustomerID := lsCustomerID
    timestamp := now
    status := none
    products := none
    saleLines := none
    lsSaleID := none
    errorMessage := some e.message
    errorDetails := some e.details
    retryCount := none
    lineItemsCount := some order.line_items.length }

/-- The status-`failed` record appended to `orderLogs` in the catch branch
(`src/index.js:525-534`). -/
def failLogRecord (shopDomain lsCustomerID now : String) (order : Order)
    (e : SaleErr) : SyncRecord :=
  { shopifyOrderId := order.id
    shopDomain := shopDomain
    lsCustomerID := lsCustomerID
    timestamp := now
    status := some ("failed")
    products := some (rawProducts order.line_items)
    saleLines := none
    lsSaleID := none
    errorMessage := some e.message
    errorDetails := some e.details
    retryCount := none
    lineItemsCount := none }

/-- Processing of an order that passed deduplication (`src/index.js:447-544`);
`s` already contains the order id in `processedOrders`. -/
def processNew (env : IntakeEnv) (shopDomain lsCustomerID now : String)
    (hasToken : Bool) (order : Order) (s : ServerState) :
    (ℕ × String) × ServerState :=
  if hasToken = false then
    let skip := skipRecord shopDomain lsCustomerID now order
    ((200, "OK"),
     { s with
        orderLogs := s.orderLogs ++ [skip]
        redisHistory := skip :: s.redisHistory
        redisQueue := skip :: s.redisQueue })
  else
    let collected := collectLines env.lookup order.line_items
    if collected.1 = [] then ((200, "OK - No syncable items"), s)
    else
      match env.sale collected.1 lsCustomerID with
      | Except.ok sr =>
          let succ := successRecord shopDomain lsCustomerID now order collected.2 sr
          ((200, "OK"),
           { s with
              orderLogs := s.orderLogs ++ [succ]
              redisHistory := succ :: s.redisHistory })
      | Except.error e =>
          let einfo := errorInfoRecord shopDomain lsCustomerID now order e
          let flog := failLogRecord shopDomain lsCustomerID now order e
          ((500, "Internal Server Error"),
           { s with
              failedOrders := s.failedOrders ++ [einfo]
              orderLogs := s.orderLogs ++ [flog]
              redisHistory := einfo :: s.redisHistory
              redisQueue := einfo :: s.redisQueue })

/-- The authenticated webhook handler body from the deduplication check on
(`src/index.js:443-544`): a known order id short-circuits to `200 OK`;
otherwise the id is added to `processedOrders` before the readiness gate. -/
def handleWebhook (env : IntakeEnv) (shopDomain lsCustomerID now : String)
    (hasToken : Bool) (order : Order) (s : ServerState) :
    (ℕ × String) × ServerState :=
  if order.id ∈ s.processedOrders then ((200, "OK"), s)
  else
    processNew env shopDomain lsCustomerID now hasToken order
      { s with processedOrders := order.id :: s.processedOrders }

/-! ## Manual resync (`src/index.js:319-340`) and retry sweep
(`src/index.js:359-399`) -/

/-- Remote behaviour for resync / sweep: the outcome of
`createSale({saleLines, customerID})` given the saved lines and customer id. -/
structure DrainEnv where
  sale : List InLine → String → Except SaleErr SaleOk

/-- `POST /resync/:orderId` (`src/index.js:319-340`): the attempt is looked
up with `failedOrders.find(f => f.shopifyOrderId === orderId)` — the
in-memory mirror — and a miss returns 404.  On success the record is
spliced out of the mirror, removed from the durable queue with
`lrem('failed_queue', 0, ...)` (all equal copies) and the first matching
audit entry is marked; on failure the handler answers 500 and changes
nothing. -/
def resync (env : DrainEnv) (orderId : String) (s : ServerState) :
    (ℕ × String) × ServerState :=
  match s.failedOrders.find? (fun f => f.shopifyOrderId = orderId) with
  | none => ((404, "Order not found in failed list"), s)
  | some failed =>
      match env.sale (failed.saleLines.getD []) failed.lsCustomerID with
      | Except.ok _ =>
          ((200, "Re-sync successful"),
           { s with
              failedOrders := removeFirst s.failedOrders failed
              redisQueue := s.redisQueue.filter (fun r => r ≠ failed)
              orderLogs := updateLogStatus s.orderLogs orderId ("success (manual retry)") })
      | Except.error e => ((500, e.message), s)

/-- `data.retryCount >= 5` as JavaScript evaluates it: `undefined >= 5` is
false, so a record without the field is below the ceiling. -/
def ceilingReached (r : SyncRecord) : Bool :=
  match r.retryCount with
  | some n => decide (5 ≤ n)
  | none => false

/-- `(data.retryCount || 0)`. -/
def retryCountVal (r : SyncRecord) : ℕ := r.retryCount.getD 0

/-- Processing of one queued record inside the `GET /cron/retry-failed` loop
(`src/index.js:364-391`).  The returned flag records whether `createSale`
was invoked for this record.  At the ceiling the record is `lrem`-ed and the
first matching audit entry marked; on a successful retry it is `lrem`-ed,
filtered out of the mirror and the audit entry marked; on a failed retry the
incremented copy replaces it (`lrem` then `lpush`). -/
def retryStep (env : DrainEnv) (item : SyncRecord) (s : ServerState) :
    ServerState × Bool :=
  if ceilingReached item then
    ({ s with
        redisQueue := removeFirst s.redisQueue item
        orderLogs := updateLogStatus s.orderLogs item.shopifyOrderId
          ("permanent fail (max retries)") }, false)
  else
    match env.sale (item.saleLines.getD []) item.lsCustomerID with
    | Except.ok _ =>
        ({ s with
            redisQueue := removeFirst s.redisQueue item
            failedOrders := s.failedOrders.filter
              (fun f => f.shopifyOrderId ≠ item.shopifyOrderId)
            orderLogs := updateLogStatus s.orderLogs item.shopifyOrderId
              ("success (auto-retried)") }, true)
    | Except.error _ =>
        let updated := { item with retryCount := some (retryCountVal item + 1) }
        ({ s with
            redisQueue := updated :: removeFirst s.redisQueue item
            orderLogs := updateLogStatus s.orderLogs item.shopifyOrderId
              ("retrying (" ++ toString (retryCountVal item + 1) ++ "/5)") }, true)

/-- The whole sweep: `lrange('failed_queue', 0, 9)` snapshots the first ten
records, then each snapshot record is processed in order. -/
def retrySweep (env : DrainEnv) (s : ServerState) : ServerState :=
  (s.redisQueue.take 10).foldl (fun st item => (retryStep env item st).1) s

/-! ## Concrete fixtures (the spec's §8 scenario and small failing runs) -/

/-- Remote catalog in which every item has `avgCost = 4.00` (the spec's
concrete scenario: `itemID=55, avgCost=4.00`). -/
def fetch55 : ℕ → ItemRec := fun _ => { avgCost := JsField.num 4, defaultCost := JsField.missing }

/-- The scenario sale line: itemID 55, quantity 2, caller price 10.00. -/
def lineEx : InLine := { itemID := 55, quantity := 2, unitPrice := 10 }

/-- The scenario order: id `1001`, one line `{sku:"ABC", quantity:2, price:10.00}`. -/
def orderEx : Order :=
  { id := "1001"
    line_items := [{ sku := some "ABC", quantity := 2, price := 10, title := some "Widget" }] }

/-- Intake remote behaviour: the sku resolves to item 55, but sale creation
fails with a non-401 remote error. -/
def envBoom : IntakeEnv :=
  { lookup := fun s => if s = "ABC" then Except.ok 55 else Except.error ("not found")
    sale := fun _ _ => Except.error { message := "boom", details := "remote 500" } }

/-- The empty process state. -/
def state0 : ServerState :=
  { processedOrders := [], orderLogs := [], failedOrders := [], redisHistory := [], redisQueue := [] }

/-- A drain/resync remote on which every resubmission would succeed. -/
def envSaleOk : DrainEnv := { sale := fun _ _ => Except.ok { saleID := some "77" } }

/-- A drain/resync remote on which every resubmission fails. -/
def envSaleFail : DrainEnv := { sale := fun _ _ => Except.error { message := "boom", details := "remote 500" } }

/-- A skipped attempt for order `1001`, as the readiness gate enqueues it. -/
def rSkip : SyncRecord := skipRecord "store-a.example" "42" "t0" orderEx

/-- A state whose in-memory mirror is empty while the durable queue still
holds the skipped attempt for order `1001`. -/
def sC2 : ServerState :=
  { processedOrders := [], orderLogs := [], failedOrders := [], redisHistory := [rSkip]
    redisQueue := [rSkip] }

/-! ## Claim C1 -/

/-- Helper for C1: against a remote that answers 401 to every attempt while
refresh succeeds, the `getItemBySystemSku` recursion only ever recurses:
after consuming any amount of fuel starting at attempt index `k` it has
performed `k + fuel` attempts and is still running. -/
theorem getItemLoop_always401 (fuel k : ℕ) :
    getItemLoop always401 refreshAlwaysOk k fuel = CallResult.stillRunning (k + fuel) := by
  induction fuel generalizing k with
  | zero => simp [getItemLoop]
  | succ n ih =>
      simp only [getItemLoop, always401, refreshAlwaysOk, if_true]
      rw [ih (k + 1)]
      congr 1
      omega

/-- Helper for C1: the same for the `createSale` recursion. -/
theorem createSaleLoop_always401 (fuel k : ℕ) :
    createSaleLoop always401 refreshAlwaysOk k fuel = CallResult.stillRunning (k + fuel) := by
  induction fuel generalizing k with
  | zero => simp [createSaleLoop]
  | succ n ih =>
      simp only [createSaleLoop, always401, refreshAlwaysOk, if_true]
      rw [ih (k + 1)]
      congr 1
      omega

/-- C1: the claim says a `getItemBySystemSku` or `createSale` call whose
remote answers 401 on every attempt performs exactly one refresh and one
retry and then propagates the second failure, never performing a third
attempt.  The source instead recurses without bound: with perpetual 401
responses and successful refreshes, for every fuel budget the call has
performed exactly `fuel` attempts (each one triggering a refresh) and has
not returned; in particular a third attempt does occur (fuel 3 yields three
attempts), so the call neither stops at the second attempt nor terminates. -/
theorem c1_unbounded_retry_on_401 :
    (∀ fuel, getItemBySystemSku always401 refreshAlwaysOk fuel
        = CallResult.stillRunning fuel)
    ∧ (∀ fuel, createSaleCall always401 refreshAlwaysOk fuel
        = CallResult.stillRunning fuel)
    ∧ getItemBySystemSku always401 refreshAlwaysOk 3 = CallResult.stillRunning 3
    ∧ createSaleCall always401 refreshAlwaysOk 3 = CallResult.stillRunning 3 := by
  refine ⟨fun fuel => ?_, fun fuel => ?_, ?_, ?_⟩
  · simpa using getItemLoop_always401 fuel 0
  · simpa using createSaleLoop_always401 fuel 0
  · simpa using getItemLoop_always401 3 0
  · simpa using createSaleLoop_always401 3 0


/-! ## Claim C5 -/

/-- The per-line price rule as the spec words it, for comparison with the
code's `fulfillmentPrice`: the computed price is `round(cost / 0.80, 2)`
for the coalesced remote cost, and whenever that computed value is
non-numeric or non-positive the caller-supplied unit price is used. -/
def specLinePrice (cost : Option ℚ) (callerPrice : ℚ) : ℚ :=
  match cost with
  | none => callerPrice
  | some c => if 0 < round2 (c / (4 / 5)) then round2 (c / (4 / 5)) else callerPrice

/-- Rounding a negative value to two decimals never yields a positive. -/
theorem round2_nonpos {x : ℚ} (hx : x < 0) : round2 x ≤ 0 := by
  unfold round2
  have h2 : (⌊x * 100 + 1 / 2⌋ : ℤ) ≤ ⌊(1 / 2 : ℚ)⌋ := Int.floor_le_floor (by linarith)
  have h3 : (⌊(1 / 2 : ℚ)⌋ : ℤ) = 0 := by norm_num
  have h4 : (⌊x * 100 + 1 / 2⌋ : ℚ) ≤ 0 := by exact_mod_cast h2.trans_eq h3
  linarith

/-- The code's per-line price computation agrees with the spec's wording. -/
theorem price_eq_spec : ∀ item up, fulfillmentPrice item up
    = specLinePrice (costField item.avgCost item.defaultCost).parsed up := by
  intro item up
  unfold fulfillmentPrice specLinePrice
  cases h : (costField item.avgCost item.defaultCost).parsed with
  | none => simp [h]
  | some c =>
      simp only [h, Option.map_some']
      split_ifs with h1 h2 <;> first | rfl | linarith

/-- C5: every sale line processed by `createSale` is priced at
`round(cost / 0.80, 2)` for the remotely fetched (coalesced
average/default) cost, falling back to the caller-supplied unit price
whenever that computed value is non-numeric or non-positive; in particular
a zero (coalescing to the default, and to literal `0` when both are
falsy), negative, non-numeric or missing cost yields the caller's price. -/
theorem c5_price_formula_and_fallback :
    (∀ fetch lines, formatLines fetch lines = lines.map fun l =>
        ({ itemID := l.itemID
           unitQuantity := l.quantity
           unitPrice := specLinePrice
             (costField (fetch l.itemID).avgCost (fetch l.itemID).defaultCost).parsed
             l.unitPrice } : OutLine))
    ∧ (∀ d up, fulfillmentPrice { avgCost := JsField.num 0, defaultCost := d } up
        = fulfillmentPrice { avgCost := d, defaultCost := d } up)
    ∧ (∀ up, fulfillmentPrice { avgCost := JsField.num 0, defaultCost := JsField.missing } up = up)
    ∧ (∀ q up, q < 0 →
        fulfillmentPrice { avgCost := JsField.num q, defaultCost := JsField.missing } up = up)
    ∧ (∀ up, fulfillmentPrice { avgCost := JsField.nonNumeric, defaultCost := JsField.missing } up = up)
    ∧ (∀ up, fulfillmentPrice { avgCost := JsField.missing, defaultCost := JsField.missing } up = up) := by
  refine ⟨fun fetch lines => ?_, fun d up => ?_, fun up => ?_, fun q up hq => ?_,
    fun up => ?_, fun up => ?_⟩
  · induction lines with
    | nil => simp [formatLines]
    | cons l ls ih => simp [formatLines, ih, price_eq_spec]
  · cases hd : d.truthy <;> simp [fulfillmentPrice, costField, JsField.num, hd]
  · norm_num [fulfillmentPrice, costField, JsField.num, JsField.missing, round2]
  · have hq0 : q ≠ 0 := ne_of_lt hq
    have hr : round2 (q / (4 / 5)) ≤ 0 :=
      round2_nonpos (div_neg_of_neg_of_pos hq (by norm_num))
    have hp : (costField (JsField.num q) JsField.missing).parsed = some q := by
      simp [costField, JsField.num, hq0]
    rw [price_eq_spec]
    unfold specLinePrice
    rw [hp]
    exact if_neg (not_lt.mpr hr)
  · simp [fulfillmentPrice, costField, JsField.nonNumeric]
  · norm_num [fulfillmentPrice, costField, JsField.missing, JsField.num, round2]

/-- Witness for C5: for the scenario item with cost 4.00 the second clause
of the rounded-price rule gives price 5.00, and the negative-cost clause
applies at cost -4. -/
theorem c5_witness :
    fulfillmentPrice { avgCost := JsField.num (-4), defaultCost := JsField.missing } 9 = 9 := by
  exact c5_price_formula_and_fallback.2.2.2.1 (-4) 9 (by norm_num)

/-! ## Claim C6 -/

/-- The code's `reduce`-style subtotal is the sum of `unitPrice * quantity`
over the formatted lines. -/
theorem subtotal_eq_sum (ls : List OutLine) :
    subtotal ls = (ls.map fun l => l.unitPrice * l.unitQuantity).sum := by
  have aux : ∀ ls : List OutLine, ∀ a : ℚ,
      ls.foldl (fun sum l => sum + l.unitPrice * l.unitQuantity) a
        = a + (ls.map fun l => l.unitPrice * l.unitQuantity).sum := by
    intro ls
    induction ls with
    | nil => intro a; simp
    | cons x xs ih => intro a; simp [ih]; ring
  unfold subtotal
  simpa using aux ls 0

/-- C6: the subtotal is the sum of `unitPrice * quantity` over the formatted
lines and the single submitted payment amount is `round(subtotal * 1.07, 2)`;
in the spec's scenario (one line, quantity 2, fulfillment price 5.00) the
subtotal is 10.00 and the submitted total 10.70. -/
theorem c6_subtotal_and_tax :
    (∀ fetch cust lines,
        subtotal (formatLines fetch lines)
          = ((formatLines fetch lines).map fun l => l.unitPrice * l.unitQuantity).sum
        ∧ (mkSalePayload fetch cust lines).paymentAmounts
          = [round2 (subtotal (formatLines fetch lines) * (107 / 100))])
    ∧ formatLines fetch55 [lineEx] = [{ itemID := 55, unitQuantity := 2, unitPrice := 5 }]
    ∧ subtotal (formatLines fetch55 [lineEx]) = 10
    ∧ (mkSalePayload fetch55 7 [lineEx]).paymentAmounts = [107 / 10] := by
  have h107 : (1 + 7 / 100 : ℚ) = 107 / 100 := by norm_num
  refine ⟨fun fetch cust lines => ⟨subtotal_eq_sum _, ?_⟩, ?_, ?_, ?_⟩
  · simp [mkSalePayload, totalWithTax, h107]
  · norm_num [formatLines, fulfillmentPrice, costField, JsField.num, JsField.missing,
      fetch55, round2, lineEx]
  · norm_num [subtotal, formatLines, fulfillmentPrice, costField, JsField.num,
      JsField.missing, fetch55, round2, lineEx]
  · norm_num [mkSalePayload, totalWithTax, subtotal, formatLines, fulfillmentPrice,
      costField, JsField.num, JsField.missing, fetch55, round2, lineEx]

/-! ## Claim C9 -/

/-- The formatted-lines loop is a per-line map. -/
theorem formatLines_eq_map (fetch : ℕ → ItemRec) (lines : List InLine) :
    formatLines fetch lines = lines.map fun l =>
      ({ itemID := l.itemID
         unitQuantity := l.quantity
         unitPrice := fulfillmentPrice (fetch l.itemID) l.unitPrice } : OutLine) := by
  induction lines with
  | nil => simp [formatLines]
  | cons l ls ih => simp [formatLines, ih]

/-- C9: a `createSale` call that reaches submission submits exactly one
`SaleLine` per input line, in the same order, with `itemID` and
`unitQuantity` copied unchanged from the input line; only the unit price is
recomputed. -/
theorem c9_line_frame :
    ∀ fetch cust lines p, createSalePayload fetch cust lines = Except.ok p →
      p.saleLines.length = lines.length
      ∧ p.saleLines.map OutLine.itemID = lines.map InLine.itemID
      ∧ p.saleLines.map OutLine.unitQuantity = lines.map InLine.quantity := by
  intro fetch cust lines p hp
  have hzero : ¬cust = 0 := by
    intro h
    rw [createSalePayload, if_pos h] at hp
    exact Except.noConfusion hp
  rw [createSalePayload, if_neg hzero] at hp
  have hp2 : p = mkSalePayload fetch cust lines := (Except.ok.injEq _ _).mp hp.symm
  subst hp2
  refine ⟨?_, ?_, ?_⟩ <;>
    simp [mkSalePayload, formatLines_eq_map, List.map_map, Function.comp]

/-- Witness for C9: the scenario call with customer 7 and one input line
yields exactly one submitted line. -/
theorem c9_witness : (mkSalePayload fetch55 7 [lineEx]).saleLines.length = 1 := by
  have h := c9_line_frame fetch55 7 [lineEx] (mkSalePayload fetch55 7 [lineEx])
    (by norm_num [createSalePayload])
  simpa using h.1

/-! ## Claims C7, C10, C8 (webhook intake) -/

/-- `processNew` never touches the deduplication set. -/
theorem processNew_processedOrders (env : IntakeEnv) (dom cust now : String)
    (tok : Bool) (order : Order) (s : ServerState) :
    ((processNew env dom cust now tok order s).2).processedOrders = s.processedOrders := by
  unfold processNew
  dsimp only
  split
  · rfl
  · split
    · rfl
    · split <;> rfl

/-- `processNew` answers 200 or 500. -/
theorem processNew_status (env : IntakeEnv) (dom cust now : String)
    (tok : Bool) (order : Order) (s : ServerState) :
    (processNew env dom cust now tok order s).1.1 = 200
      ∨ (processNew env dom cust now tok order s).1.1 = 500 := by
  unfold processNew
  dsimp only
  split
  · exact Or.inl rfl
  · split
    · exact Or.inl rfl
    · split
      · exact Or.inl rfl
      · exact Or.inr rfl

/-- C7: an authenticated webhook for a fresh order arriving while no access
token is cached is recorded with status `skipped` (not `failed`), the record
is appended to the audit log (in-memory and durable history) and enqueued
into the durable retry queue, and the sender receives 200. -/
theorem c7_skipped_logged_queued :
    ∀ env dom cust now order s, order.id ∉ s.processedOrders →
      handleWebhook env dom cust now false order s
        = ((200, "OK"),
           { s with
              processedOrders := order.id :: s.processedOrders
              orderLogs := s.orderLogs ++ [skipRecord dom cust now order]
              redisHistory := skipRecord dom cust now order :: s.redisHistory
              redisQueue := skipRecord dom cust now order :: s.redisQueue })
      ∧ (skipRecord dom cust now order).status = some ("skipped")
      ∧ (skipRecord dom cust now order).status ≠ some ("failed") := by
  intro env dom cust now order s h
  refine ⟨?_, rfl, by simp [skipRecord]⟩
  rw [handleWebhook, if_neg h]
  rfl

/-- Witness for C7: the scenario order delivered with no token on the empty
state is accepted with 200. -/
theorem c7_skipped_witness :
    (handleWebhook envBoom "store-a.example" "42" "t0" false orderEx state0).1 = (200, "OK") := by
  have h := c7_skipped_logged_queued envBoom "store-a.example" "42" "t0" orderEx state0 (by decide)
  rw [h.1]

/-- C10: the handler adds the order id to `processedOrders` before the
credential-readiness check, so an order first delivered without a cached
token is recorded as skipped with its id registered, and every subsequent
delivery of the same id in the same process lifetime — in particular with a
valid token now available — is a pure no-op answering 200. -/
theorem c10_dedup_precedes_readiness :
    ∀ env dom cust now order s, order.id ∉ s.processedOrders →
      ((handleWebhook env dom cust now false order s).2.processedOrders
          = order.id :: s.processedOrders
        ∧ (handleWebhook env dom cust now false order s).2.redisQueue.head?
          = some (skipRecord dom cust now order)
        ∧ (skipRecord dom cust now order).status = some ("skipped"))
      ∧ ∀ env2 dom2 cust2 now2 tok2 s2, order.id ∈ s2.processedOrders →
          handleWebhook env2 dom2 cust2 now2 tok2 order s2 = ((200, "OK"), s2) := by
  intro env dom cust now order s h
  constructor
  · rw [handleWebhook, if_neg h]
    exact ⟨rfl, rfl, rfl⟩
  · intro env2 dom2 cust2 now2 tok2 s2 h2
    rw [handleWebhook, if_pos h2]

/-- Witness for C10: the scenario order skipped on the empty state, then
redelivered with a valid token, is a no-op answering 200. -/
theorem c10_dedup_witness :
    handleWebhook envBoom "dom2" "cust2" "t2" true orderEx
        ((handleWebhook envBoom "store-a.example" "42" "t0" false orderEx state0).2)
      = ((200, "OK"), (handleWebhook envBoom "store-a.example" "42" "t0" false orderEx state0).2) := by
  have h := c10_dedup_precedes_readiness envBoom "store-a.example" "42" "t0" orderEx state0 (by decide)
  exact h.2 envBoom "dom2" "cust2" "t2" true _ (by rw [h.1.1]; exact List.mem_cons_self _ _)

/-- Counterexample for C8: delivering the scenario order twice (authenticated,
token cached, sale submission failing remotely) gives a first response of 500
— not 200 as the claim states for both deliveries — while the duplicate
delivery is answered 200. -/
theorem c8_first_delivery_500 :
    (handleWebhook envBoom "store-a.example" "42" "t0" true orderEx state0).1.1 = 500
    ∧ (handleWebhook envBoom "store-a.example" "42" "t0" true orderEx
        ((handleWebhook envBoom "store-a.example" "42" "t0" true orderEx state0).2)).1
      = (200, "OK") :=
  ⟨by decide, by decide⟩

/-- C8 (amended): delivering the same order identifier twice within one
process lifetime yields exactly the audit/queue entries of the first
delivery alone: the second delivery is a pure no-op (no lookup, sale, log,
or enqueue) answering 200; the first delivery answers 200 or — when sale
submission fails — 500. -/
theorem c8_idempotent_amended :
    ∀ env dom cust now tok order s0,
      order.id ∈ ((handleWebhook env dom cust now tok order s0).2).processedOrders
      ∧ ((handleWebhook env dom cust now tok order s0).1.1 = 200
          ∨ (handleWebhook env dom cust now tok order s0).1.1 = 500)
      ∧ ∀ env2 dom2 cust2 now2 tok2,
          handleWebhook env2 dom2 cust2 now2 tok2 order
              ((handleWebhook env dom cust now tok order s0).2)
            = ((200, "OK"), (handleWebhook env dom cust now tok order s0).2) := by
  intro env dom cust now tok order s0
  have hmem : order.id ∈ ((handleWebhook env dom cust now tok order s0).2).processedOrders := by
    rw [handleWebhook]
    by_cases h : order.id ∈ s0.processedOrders
    · rw [if_pos h]
      exact h
    · rw [if_neg h]
      rw [processNew_processedOrders]
      exact List.mem_cons_self _ _
  refine ⟨hmem, ?_, ?_⟩
  · rw [handleWebhook]
    by_cases h : order.id ∈ s0.processedOrders
    · rw [if_pos h]
      exact Or.inl rfl
    · rw [if_neg h]
      exact processNew_status _ _ _ _ _ _ _
  · intro env2 dom2 cust2 now2 tok2
    rw [handleWebhook, if_pos hmem]

/-! ## Claims C2, C3, C4 (durable queue) -/

/-- Counterexample for C2: a state in which the durable retry queue still
holds the skipped attempt for order `1001` while the in-memory mirror is
empty.  Resync answers 404 — even with a remote on which resubmission would
succeed — because the handler searches only the in-memory `failedOrders`
mirror, not the durable queue. -/
theorem c2_resync_counterexample :
    rSkip ∈ sC2.redisQueue ∧ rSkip.shopifyOrderId = "1001"
      ∧ resync envSaleOk "1001" sC2 = ((404, "Order not found in failed list"), sC2) :=
  ⟨by decide, rfl, rfl⟩

/-- C2 (amended): `resync(orderId)` locates the attempt by order identifier
only in the in-memory `failedOrders` mirror; a miss there answers 404 and
leaves the state (durable queue included) untouched.  When the mirror holds
a matching record, a successful resubmission removes it from the mirror,
removes all equal records from the durable queue and marks the first
matching audit entry; a failed resubmission answers 500 and changes
nothing (it does not increment `retryCount` or re-queue as `drain` does). -/
theorem c2_resync_amended :
    ∀ env orderId s,
      (s.failedOrders.find? (fun f => f.shopifyOrderId = orderId) = none →
         resync env orderId s = ((404, "Order not found in failed list"), s))
      ∧ (∀ f, s.failedOrders.find? (fun f => f.shopifyOrderId = orderId) = some f →
          (∀ ok, env.sale (f.saleLines.getD []) f.lsCustomerID = Except.ok ok →
             resync env orderId s = ((200, "Re-sync successful"),
               { s with
                  failedOrders := removeFirst s.failedOrders f
                  redisQueue := s.redisQueue.filter (fun r => r ≠ f)
                  orderLogs := updateLogStatus s.orderLogs orderId ("success (manual retry)") }))
          ∧ (∀ e, env.sale (f.saleLines.getD []) f.lsCustomerID = Except.error e →
              resync env orderId s = ((500, e.message), s))) := by
  intro env orderId s
  constructor
  · intro hnone
    rw [resync, hnone]
  · intro f hf
    constructor
    · intro ok hok
      rw [resync, hf]
      dsimp only
      rw [hok]
    · intro e he
      rw [resync, hf]
      dsimp only
      rw [he]

/-- A state whose mirror and durable queue both hold the attempt for `1001`. -/
def sErr : ServerState := { state0 with failedOrders := [rSkip], redisQueue := [rSkip] }

/-- Witness for C2: with the attempt present in the mirror and a failing
remote, resync answers 500 and leaves the state unchanged. -/
theorem c2_resync_witness :
    resync envSaleFail "1001" sErr = ((500, "boom"), sErr) := by
  have h := ((c2_resync_amended envSaleFail "1001" sErr).2 rSkip (by decide)).2
    { message := "boom", details := "remote 500" } rfl
  simpa using h

/-- C3 (evaluating the code at the failing input): when the scenario order's
sale submission fails, the record pushed onto the durable retry queue is the
catch-branch `errorInfo` object, which carries neither a `retryCount` nor
the `saleLines` needed for resubmission; the sender receives 500. -/
theorem c3_enqueued_without_salelines :
    ((handleWebhook envBoom "store-a.example" "42" "t0" true orderEx state0).2.redisQueue
      = [errorInfoRecord "store-a.example" "42" "t0" orderEx
          { message := "boom", details := "remote 500" }])
    ∧ (errorInfoRecord "store-a.example" "42" "t0" orderEx
        { message := "boom", details := "remote 500" }).retryCount = none
    ∧ (errorInfoRecord "store-a.example" "42" "t0" orderEx
        { message := "boom", details := "remote 500" }).saleLines = none
    ∧ (handleWebhook envBoom "store-a.example" "42" "t0" true orderEx state0).1.1 = 500 :=
  ⟨rfl, rfl, rfl, by decide⟩

/-- C4: a queued attempt processed by the retry sweep whose `retryCount` has
reached the ceiling of 5 is evicted from the durable queue and its audit
entry marked permanently failed, with no `createSale` call (the returned
flag is false); `createSale` is only ever invoked when the stored count is
at most 4, so no attempt is retried a sixth time; and on a failed retry the
record is replaced in the durable queue by a copy whose `retryCount` is the
old value plus one, so the count is monotonically non-decreasing across
re-queues. -/
theorem c4_retry_ceiling_and_monotonicity :
    ∀ env item s,
      (ceilingReached item = true ↔ ∃ n, item.retryCount = some n ∧ 5 ≤ n)
      ∧ (ceilingReached item = true →
          retryStep env item s
            = ({ s with
                  redisQueue := removeFirst s.redisQueue item
                  orderLogs := updateLogStatus s.orderLogs item.shopifyOrderId
                    ("permanent fail (max retries)") }, false))
      ∧ ((retryStep env item s).2 = true → retryCountVal item ≤ 4)
      ∧ (ceilingReached item = false →
          ∀ e, env.sale (item.saleLines.getD []) item.lsCustomerID = Except.error e →
            retryStep env item s
              = ({ s with
                    redisQueue := { item with retryCount := some (retryCountVal item + 1) }
                      :: removeFirst s.redisQueue item
                    orderLogs := updateLogStatus s.orderLogs item.shopifyOrderId
                      ("retrying (" ++ toString (retryCountVal item + 1) ++ "/5)") }, true)
            ∧ retryCountVal { item with retryCount := some (retryCountVal item + 1) }
                = retryCountVal item + 1) := by
  intro env item s
  refine ⟨?_, ?_, ?_, ?_⟩
  · unfold ceilingReached
    cases h : item.retryCount with
    | none => simp
    | some n => simp [h]
  · intro hc
    rw [retryStep, if_pos hc]
  · intro ht
    by_cases hc : ceilingReached item = true
    · rw [retryStep, if_pos hc] at ht
      exact absurd ht (by simp)
    · have hc5 : ¬(5 ≤ retryCountVal item) := by
        unfold ceilingReached at hc
        unfold retryCountVal
        cases h : item.retryCount with
        | none => simp
        | some n =>
            rw [h] at hc
            simpa using hc
      omega
  · intro hc e he
    have hcf : ¬ceilingReached item = true := by simp [hc]
    refine ⟨?_, by simp [retryCountVal]⟩
    rw [retryStep, if_neg hcf]
    dsimp only
    rw [he]

/-- The skipped attempt for `1001` after five unsuccessful retries. -/
def itemCeil : SyncRecord := { rSkip with retryCount := some 5 }

/-- Witness for C4: at the ceiling the step evicts without calling
`createSale`; below the ceiling a failed retry re-queues the attempt with
`retryCount` 1. -/
theorem c4_retry_witness :
    retryStep envSaleFail itemCeil state0
      = ({ state0 with
            redisQueue := removeFirst state0.redisQueue itemCeil
            orderLogs := updateLogStatus state0.orderLogs itemCeil.shopifyOrderId
              ("permanent fail (max retries)") }, false)
    ∧ (retryStep envSaleFail rSkip sC2).1.redisQueue
        = { rSkip with retryCount := some 1 } :: removeFirst sC2.redisQueue rSkip := by
  constructor
  · exact (c4_retry_ceiling_and_monotonicity envSaleFail itemCeil state0).2.1 (by decide)
  · have h := ((c4_retry_ceiling_and_monotonicity envSaleFail rSkip sC2).2.2.2 (by decide)
      { message := "boom", details := "remote 500" } rfl).1
    rw [h]
    rfl
